import Mathlib

/-
Shallow embedding of `saramPy/api.py` (the `SaramAPI` HTTP client).

Each Python method is translated into a pure Lean function from the client
state, the method arguments and the HTTP response the server would give, to
an `Outcome`: the list of HTTP requests issued, the lines printed, and the
result (`Except` models Python's raise/return).
-/

namespace SaramPy

/-- JSON values, as built by the payload dictionaries in `api.py` and as
returned by `requests.Response.json()`. -/
inductive JValue where
  | str (s : String)
  | num (n : Int)
  | arr (xs : List JValue)
  | obj (fields : List (String × JValue))

/-- HTTP methods used by the module (`requests.get/post/patch/delete`). -/
inductive Method where
  | get
  | post
  | patch
  | delete
deriving DecidableEq

/-- An HTTP request as issued through `requests`: method, url, the `headers=`
keyword argument (`none` when the call passes no headers) and the `json=`
keyword argument (`none` when the call passes no body). -/
structure Request where
  method : Method
  url : String
  headers : Option (List (String × String))
  body : Option JValue

/-- An HTTP response as seen through `requests.Response`: the status code and
the parsed JSON body that `r.json()` returns. -/
structure Response where
  status_code : Nat
  body : JValue

/-- Attribute lookup on a `requests.Response` object, restricted to the
integer-valued attributes this module reads by name. `requests.Response`
exposes `status_code`; it has no attribute named `status`, so looking that up
raises `AttributeError` in Python, modelled here by `none`. -/
def Response.getAttr (r : Response) (name : String) : Option Nat :=
  if name = "status_code" then some r.status_code else none

/-- The exception kinds the module can raise: the two classes defined in
`api.py` (`StatusNotOk`, `NotValidCategory`), the built-in `TypeError` raised
by `create_new_section`, and the built-in `AttributeError` raised when a
missing attribute is read. -/
inductive PyError where
  | statusNotOk (msg : String)
  | notValidCategory (msg : String)
  | typeError (msg : String)
  | attributeError (name : String)

/-- The credential file contents read in `__init__`
(`username`, `apiKey`, and the optional `avatar` via `conf.get`). -/
structure Config where
  username : String
  apiKey : String
  avatar : Option String

/-- The state of a `SaramAPI` instance after `__init__`. The fields
`token_generator` and `time` stand for `self._token_generator` and
`self._time` inherited from the `Saram` base class (that class is not part of
the sources here, so they are kept abstract, fixed at construction). The
Python names `_valid_types`, `_valid_categories`, `_headers` drop their
leading underscore. -/
structure SaramAPI where
  username : String
  apiKey : String
  avatar : String
  base_url : String
  api_url : String
  valid_types : List String
  valid_categories : List String
  headers : List (String × String)
  token_generator : String → String
  time : String

/-- The valid type list assigned to `self._valid_types` in `__init__`. -/
def validTypes : List String := ["file", "stdout", "script", "dump", "tool", "image"]

/-- The valid category list assigned to `self._valid_categories` in `__init__`. -/
def validCategories : List String :=
  ["android", "cryptography", "firmware", "forensics", "hardware", "ios", "misc",
   "network", "pcap", "pwn", "reversing", "stego", "web", "none", "other", "scripting"]

/-- A single-quote character, used by Python's `repr` of strings. -/
def squote : String := String.singleton (Char.ofNat 39)

/-- Python's rendering of a list of (plain) strings inside an f-string, as in
`f'Valid types are \x7bself._valid_types\x7d'`. -/
def pyReprStrList (l : List String) : String :=
  "[" ++ String.intercalate ", " (l.map (fun x => squote ++ x ++ squote)) ++ "]"

/-- `SaramAPI.__init__`: reads the credential file (`conf`), keeps the base
url from the `Saram` superclass, derives `api_url`, fixes the valid type and
category lists and builds the auth header dictionary. The avatar defaults to
`/static/saramapi.png` when the configuration has none. -/
def SaramAPI.init (conf : Config) (base_url : String)
    (tokenGen : String → String) (time : String) : SaramAPI :=
  { username := conf.username
    apiKey := conf.apiKey
    avatar := conf.avatar.getD "/static/saramapi.png"
    base_url := base_url
    api_url := base_url ++ "api/"
    valid_types := validTypes
    valid_categories := validCategories
    headers := [("x-saram-apikey", conf.apiKey), ("x-saram-username", conf.username)]
    token_generator := tokenGen
    time := time }

/-- The observable outcome of one method call: the client state after the
call, the HTTP requests issued, the lines printed, and the returned value or
raised exception. -/
structure Outcome (α : Type) where
  client : SaramAPI
  requests : List Request
  logs : List String
  result : Except PyError α

/-- Modelled from the spec: Python's `uuid1()` (standard library, outside
these sources) generates a fresh unique section id on every call; it is
modelled as an injective function of a global call counter. -/
def uuid1 (n : Nat) : String := String.mk (List.replicate (n + 1) 'u')

/-- `SaramAPI.get_all_entries`: `GET <api_url>all/entries` with the auth
headers; returns the parsed body on 200, raises `StatusNotOk` otherwise. -/
def get_all_entries (s : SaramAPI) (resp : Response) : Outcome JValue :=
  let req : Request :=
    { method := .get, url := s.api_url ++ "all/entries",
      headers := some s.headers, body := none }
  if resp.status_code = 200 then
    { client := s, requests := [req], logs := [], result := .ok resp.body }
  else
    { client := s, requests := [req], logs := [],
      result := .error (.statusNotOk "Could not create section") }

/-- `SaramAPI.get_entry`: `GET <api_url><token>` with the auth headers;
returns the parsed body on 200, raises `StatusNotOk` otherwise. -/
def get_entry (s : SaramAPI) (token : String) (resp : Response) : Outcome JValue :=
  let req : Request :=
    { method := .get, url := s.api_url ++ token,
      headers := some s.headers, body := none }
  if resp.status_code = 200 then
    { client := s, requests := [req], logs := [], result := .ok resp.body }
  else
    { client := s, requests := [req], logs := [],
      result := .error (.statusNotOk "Could not create section") }

/-- `SaramAPI.delete_entry`: `DELETE <api_url><token>` with the auth headers;
returns the parsed body on 200. On any other status it evaluates
`f'Could not delete Status code: \x7br.status\x7d'`: reading `r.status` is an
attribute lookup on the response, which fails (`requests.Response` only has
`status_code`), so the f-string itself raises `AttributeError` before
`StatusNotOk` can be constructed. -/
def delete_entry (s : SaramAPI) (token : String) (resp : Response) : Outcome JValue :=
  let req : Request :=
    { method := .delete, url := s.api_url ++ token,
      headers := some s.headers, body := none }
  if resp.status_code = 200 then
    { client := s, requests := [req], logs := [], result := .ok resp.body }
  else
    match resp.getAttr "status" with
    | some v =>
      { client := s, requests := [req], logs := [],
        result := .error (.statusNotOk ("Could not delete Status code: " ++ Nat.repr v)) }
    | none =>
      { client := s, requests := [req], logs := [],
        result := .error (.attributeError "status") }

/-- The payload dictionary built at the top of `create_new_section`; `n` is
the `uuid1` call counter. -/
def create_new_section_payload (s : SaramAPI) (n : Nat)
    (type output command comment : String) : JValue :=
  .obj [("id", .str (uuid1 n)),
        ("type", .str type),
        ("output", .str output),
        ("command", .str command),
        ("user", .str s.username),
        ("comment", .obj [("text", .str comment),
                          ("username", .str s.username),
                          ("avatar", .str s.avatar)]),
        ("options", .obj [("marked", .num 2)]),
        ("time", .str s.time)]

/-- `SaramAPI.create_new_section`: builds the payload, then raises
`TypeError` if `type` is not in the valid type list (before any request);
otherwise `PATCH <api_url><token>` with the auth headers and the payload,
returning the parsed body on 200 and raising `StatusNotOk` otherwise. -/
def create_new_section (s : SaramAPI) (n : Nat) (token type output command : String)
    (comment : String) (resp : Response) : Outcome JValue :=
  let payload := create_new_section_payload s n type output command comment
  if type ∉ s.valid_types then
    { client := s, requests := [], logs := [],
      result := .error (.typeError ("Valid types are " ++ pyReprStrList s.valid_types)) }
  else
    let req : Request :=
      { method := .patch, url := s.api_url ++ token,
        headers := some s.headers, body := some payload }
    if resp.status_code = 200 then
      { client := s, requests := [req], logs := [], result := .ok resp.body }
    else
      { client := s, requests := [req], logs := [],
        result := .error (.statusNotOk "Could not create section") }

/-- `create_new_section` called without the `comment` argument, which Python
defaults to `saramPy`. -/
def create_new_section_default (s : SaramAPI) (n : Nat)
    (token type output command : String) (resp : Response) : Outcome JValue :=
  create_new_section s n token type output command "saramPy" resp

/-- The payload dictionary built by `add_comment`. -/
def add_comment_payload (s : SaramAPI) (comment : String) : JValue :=
  .obj [("data", .obj [("text", .str comment),
                       ("username", .str s.username),
                       ("avatar", .str s.avatar)])]

/-- `SaramAPI.add_comment`: `PATCH <api_url><token>/<dataid>/comment` with
the auth headers and the comment payload; returns the parsed body on 200,
raises `StatusNotOk` otherwise. -/
def add_comment (s : SaramAPI) (token dataid comment : String)
    (resp : Response) : Outcome JValue :=
  let req : Request :=
    { method := .patch, url := s.api_url ++ token ++ "/" ++ dataid ++ "/comment",
      headers := some s.headers, body := some (add_comment_payload s comment) }
  if resp.status_code = 200 then
    { client := s, requests := [req], logs := [], result := .ok resp.body }
  else
    { client := s, requests := [req], logs := [],
      result := .error (.statusNotOk "Could not add comment") }

/-- `SaramAPI.delete_section`: `DELETE <api_url><token>/<dataid>` with the
auth headers; returns the parsed body on 200, raises `StatusNotOk`
otherwise. -/
def delete_section (s : SaramAPI) (token dataid : String)
    (resp : Response) : Outcome JValue :=
  let req : Request :=
    { method := .delete, url := s.api_url ++ token ++ "/" ++ dataid,
      headers := some s.headers, body := none }
  if resp.status_code = 200 then
    { client := s, requests := [req], logs := [], result := .ok resp.body }
  else
    { client := s, requests := [req], logs := [],
      result := .error (.statusNotOk "Could not delete section") }

/-- The payload dictionary built by `create_new_entry`. -/
def create_new_entry_payload (s : SaramAPI) (title category slack_link : String) : JValue :=
  .obj [("title", .str title),
        ("category", .str category),
        ("slackLink", .str slack_link),
        ("timeCreate", .str s.time),
        ("data", .arr [])]

/-- `SaramAPI.create_new_entry`: raises `NotValidCategory` if `category` is
not in the valid category list (before any request); otherwise derives the
token locally via `self._token_generator(title)` and issues
`POST <api_url>create/<token>` with the auth headers and the payload. On 200
it prints a message and returns `None`; otherwise it raises `StatusNotOk`. -/
def create_new_entry (s : SaramAPI) (title category slack_link : String)
    (resp : Response) : Outcome Unit :=
  if category ∉ s.valid_categories then
    { client := s, requests := [], logs := [],
      result := .error (.notValidCategory
        ("Valid categories are " ++ pyReprStrList s.valid_categories)) }
  else
    let token := s.token_generator title
    let req : Request :=
      { method := .post, url := s.api_url ++ "create/" ++ token,
        headers := some s.headers,
        body := some (create_new_entry_payload s title category slack_link) }
    if resp.status_code = 200 then
      { client := s, requests := [req], logs := ["Created new entry"], result := .ok () }
    else
      { client := s, requests := [req], logs := [],
        result := .error (.statusNotOk "Could not create entry") }

/-- `SaramAPI.reset_api_key`: `POST <api_url>reset/key` with the auth headers
and the old key/username payload; returns the parsed body on 200, raises
`StatusNotOk` otherwise. -/
def reset_api_key (s : SaramAPI) (old_apikey username : String)
    (resp : Response) : Outcome JValue :=
  let req : Request :=
    { method := .post, url := s.api_url ++ "reset/key",
      headers := some s.headers,
      body := some (.obj [("apiKey", .str old_apikey), ("username", .str username)]) }
  if resp.status_code = 200 then
    { client := s, requests := [req], logs := [], result := .ok resp.body }
  else
    { client := s, requests := [req], logs := [],
      result := .error (.statusNotOk "Could not create section") }

/-- `SaramAPI.change_username`: `POST <api_url>reset/username` with the auth
headers and the key/old/new username payload; returns the parsed body on 200,
raises `StatusNotOk` otherwise. -/
def change_username (s : SaramAPI) (api_key old_username new_username : String)
    (resp : Response) : Outcome JValue :=
  let req : Request :=
    { method := .post, url := s.api_url ++ "reset/username",
      headers := some s.headers,
      body := some (.obj [("apiKey", .str api_key),
                          ("username", .str old_username),
                          ("newUsername", .str new_username)]) }
  if resp.status_code = 200 then
    { client := s, requests := [req], logs := [], result := .ok resp.body }
  else
    { client := s, requests := [req], logs := [],
      result := .error (.statusNotOk "Could not create section") }

/-- `SaramAPI.validate_api_key`: `POST <base_url>misc/valid/key` with only
the key payload and no `headers=` argument; returns the parsed body on 200,
raises `StatusNotOk` otherwise. -/
def validate_api_key (s : SaramAPI) (api_key : String)
    (resp : Response) : Outcome JValue :=
  let req : Request :=
    { method := .post, url := s.base_url ++ "misc/valid/key",
      headers := none, body := some (.obj [("key", .str api_key)]) }
  if resp.status_code = 200 then
    { client := s, requests := [req], logs := [], result := .ok resp.body }
  else
    { client := s, requests := [req], logs := [],
      result := .error (.statusNotOk "Could not validate API key") }

/-- `SaramAPI.get_valid_token`: `POST <base_url>misc/valid/token` with only
the title payload and no `headers=` argument; returns the parsed body on 200,
raises `StatusNotOk` otherwise. -/
def get_valid_token (s : SaramAPI) (title : String)
    (resp : Response) : Outcome JValue :=
  let req : Request :=
    { method := .post, url := s.base_url ++ "misc/valid/token",
      headers := none, body := some (.obj [("title", .str title)]) }
  if resp.status_code = 200 then
    { client := s, requests := [req], logs := [], result := .ok resp.body }
  else
    { client := s, requests := [req], logs := [],
      result := .error (.statusNotOk "Could not create a valid token") }

/-- A concrete client state, as `__init__` builds it from a concrete
credential file, base url, token generator and timestamp. -/
def sampleClient : SaramAPI :=
  SaramAPI.init ⟨"alice", "key123", none⟩ "https://saram.test/" (fun t => t ++ "-tok") "t0"

/-- C1: the claim says every operation raises only `StatusNotOk` on a non-200
response; `delete_entry` instead reads `r.status` — an attribute
`requests.Response` does not have — while formatting the error message, so on
a non-200 response it raises `AttributeError`, not `StatusNotOk`. This
theorem evaluates `delete_entry` at a 404 response and shows the
`AttributeError`. -/
theorem delete_entry_non200_raises_attribute_error :
    (delete_entry sampleClient "sometoken" ⟨404, .obj []⟩).result
      = .error (.attributeError "status") := rfl

/-- C2: `create_new_section` on a `type` outside the fixed valid type set
issues no request and raises the `TypeError`; on a `type` inside the set it
never raises a `TypeError`. -/
theorem create_new_section_validates_type (conf : Config) (base : String)
    (tokG : String → String) (time : String) (n : Nat)
    (token ty output command comment : String) (resp : Response) :
    (ty ∉ validTypes →
      (create_new_section (SaramAPI.init conf base tokG time) n token ty output
          command comment resp).requests = [] ∧
      (create_new_section (SaramAPI.init conf base tokG time) n token ty output
          command comment resp).result
        = .error (.typeError ("Valid types are " ++ pyReprStrList validTypes)))
    ∧ (ty ∈ validTypes →
      ∀ msg, (create_new_section (SaramAPI.init conf base tokG time) n token ty output
          command comment resp).result ≠ .error (.typeError msg)) := by
  constructor
  · intro h
    simp [create_new_section, SaramAPI.init, h]
  · intro h msg
    simp only [create_new_section, SaramAPI.init, h, not_true_eq_false, if_false]
    split <;> simp

/-- C2 witness: at the concrete type `nope` the rejection fires with no
request, and at the valid type `stdout` no `TypeError` arises. -/
theorem create_new_section_validates_type_witness :
    ((create_new_section sampleClient 0 "tok" "nope" "o" "c" "saramPy"
        ⟨200, .obj []⟩).requests = [])
    ∧ ∀ msg, (create_new_section sampleClient 0 "tok" "stdout" "o" "c" "saramPy"
        ⟨200, .obj []⟩).result ≠ .error (.typeError msg) :=
  ⟨((create_new_section_validates_type ⟨"alice", "key123", none⟩ "https://saram.test/"
      (fun t => t ++ "-tok") "t0" 0 "tok" "nope" "o" "c" "saramPy"
      ⟨200, .obj []⟩).1 (by decide)).1,
   (create_new_section_validates_type ⟨"alice", "key123", none⟩ "https://saram.test/"
      (fun t => t ++ "-tok") "t0" 0 "tok" "stdout" "o" "c" "saramPy"
      ⟨200, .obj []⟩).2 (by decide)⟩

/-- C3: `create_new_entry` on a `category` outside the fixed valid category
set issues no request and raises `NotValidCategory`; on a `category` inside
the set it never raises `NotValidCategory`. -/
theorem create_new_entry_validates_category (conf : Config) (base : String)
    (tokG : String → String) (time : String)
    (title category slack_link : String) (resp : Response) :
    (category ∉ validCategories →
      (create_new_entry (SaramAPI.init conf base tokG time) title category
          slack_link resp).requests = [] ∧
      (create_new_entry (SaramAPI.init conf base tokG time) title category
          slack_link resp).result
        = .error (.notValidCategory ("Valid categories are " ++ pyReprStrList validCategories)))
    ∧ (category ∈ validCategories →
      ∀ msg, (create_new_entry (SaramAPI.init conf base tokG time) title category
          slack_link resp).result ≠ .error (.notValidCategory msg)) := by
  constructor
  · intro h
    simp [create_new_entry, SaramAPI.init, h]
  · intro h msg
    simp only [create_new_entry, SaramAPI.init, h, not_true_eq_false, if_false]
    split <;> simp

/-- C3 witness: the concrete category `knitting` is rejected with no request,
and the valid category `web` never yields `NotValidCategory`. -/
theorem create_new_entry_validates_category_witness :
    ((create_new_entry sampleClient "Title" "knitting" "" ⟨200, .obj []⟩).requests = [])
    ∧ ∀ msg, (create_new_entry sampleClient "Title" "web" "" ⟨200, .obj []⟩).result
        ≠ .error (.notValidCategory msg) :=
  ⟨((create_new_entry_validates_category ⟨"alice", "key123", none⟩ "https://saram.test/"
      (fun t => t ++ "-tok") "t0" "Title" "knitting" "" ⟨200, .obj []⟩).1 (by decide)).1,
   (create_new_entry_validates_category ⟨"alice", "key123", none⟩ "https://saram.test/"
      (fun t => t ++ "-tok") "t0" "Title" "web" "" ⟨200, .obj []⟩).2 (by decide)⟩

/-- C4: `create_new_section` called with type `stdout`, output `out`,
command `ls -la` and the default comment sends one request whose payload
carries the freshly generated id, the given type/output/command, and a
comment object with the default text `saramPy` and the username and avatar
captured at construction; distinct calls (distinct uuid counter values)
produce distinct ids. -/
theorem create_new_section_default_payload_shape (conf : Config) (base : String)
    (tokG : String → String) (time : String) (n : Nat)
    (token : String) (resp : Response) :
    ((create_new_section_default (SaramAPI.init conf base tokG time) n token
        "stdout" "out" "ls -la" resp).requests.map Request.body
      = [some (.obj [("id", .str (uuid1 n)),
          ("type", .str "stdout"),
          ("output", .str "out"),
          ("command", .str "ls -la"),
          ("user", .str conf.username),
          ("comment", .obj [("text", .str "saramPy"),
                            ("username", .str conf.username),
                            ("avatar", .str (conf.avatar.getD "/static/saramapi.png"))]),
          ("options", .obj [("marked", .num 2)]),
          ("time", .str time)])])
    ∧ ∀ m k : Nat, m ≠ k → uuid1 m ≠ uuid1 k := by
  constructor
  · have hmem : ¬ (("stdout" : String) ∉ validTypes) := by decide
    simp only [create_new_section_default, create_new_section,
      create_new_section_payload, SaramAPI.init, hmem, if_false]
    split <;> rfl
  · intro m k hmk hc
    apply hmk
    have h2 := congrArg (fun s : String => s.data.length) hc
    have h3 : m + 1 = k + 1 := by simpa [uuid1] using h2
    omega

/-- C4 witness: the payload shape at a concrete client and counter, and
distinctness of the ids of the first two calls. -/
theorem create_new_section_default_payload_shape_witness :
    ((create_new_section_default sampleClient 0 "tok" "stdout" "out" "ls -la"
        ⟨200, .obj []⟩).requests.map Request.body
      = [some (.obj [("id", .str (uuid1 0)),
          ("type", .str "stdout"),
          ("output", .str "out"),
          ("command", .str "ls -la"),
          ("user", .str "alice"),
          ("comment", .obj [("text", .str "saramPy"),
                            ("username", .str "alice"),
                            ("avatar", .str "/static/saramapi.png")]),
          ("options", .obj [("marked", .num 2)]),
          ("time", .str "t0")])])
    ∧ uuid1 0 ≠ uuid1 1 :=
  ⟨(create_new_section_default_payload_shape ⟨"alice", "key123", none⟩
      "https://saram.test/" (fun t => t ++ "-tok") "t0" 0 "tok" ⟨200, .obj []⟩).1,
   (create_new_section_default_payload_shape ⟨"alice", "key123", none⟩
      "https://saram.test/" (fun t => t ++ "-tok") "t0" 0 "tok" ⟨200, .obj []⟩).2
      0 1 (by decide)⟩

/-- C5: on an HTTP 200 response `create_new_entry` only prints the success
message and returns `None` (unit, independent of the response body and of
the token); on a non-200 response it raises `StatusNotOk`. -/
theorem create_new_entry_success_only_logs (conf : Config) (base : String)
    (tokG : String → String) (time : String)
    (title category slack_link : String) (resp : Response)
    (hcat : category ∈ validCategories) :
    (resp.status_code = 200 →
      (create_new_entry (SaramAPI.init conf base tokG time) title category
          slack_link resp).result = .ok () ∧
      (create_new_entry (SaramAPI.init conf base tokG time) title category
          slack_link resp).logs = ["Created new entry"])
    ∧ (resp.status_code ≠ 200 →
      (create_new_entry (SaramAPI.init conf base tokG time) title category
          slack_link resp).result = .error (.statusNotOk "Could not create entry") ∧
      (create_new_entry (SaramAPI.init conf base tokG time) title category
          slack_link resp).logs = []) := by
  constructor
  · intro h200
    simp [create_new_entry, SaramAPI.init, hcat, h200]
  · intro h200
    simp [create_new_entry, SaramAPI.init, hcat, h200]

/-- C5 witness: a concrete 200 call returns unit and logs the message, and a
concrete 500 call raises `StatusNotOk`. -/
theorem create_new_entry_success_only_logs_witness :
    ((create_new_entry sampleClient "Title" "web" ""
        ⟨200, .str "ignored"⟩).result = .ok () ∧
     (create_new_entry sampleClient "Title" "web" ""
        ⟨200, .str "ignored"⟩).logs = ["Created new entry"])
    ∧ ((create_new_entry sampleClient "Title" "web" ""
        ⟨500, .obj []⟩).result = .error (.statusNotOk "Could not create entry") ∧
       (create_new_entry sampleClient "Title" "web" "" ⟨500, .obj []⟩).logs = []) :=
  ⟨(create_new_entry_success_only_logs ⟨"alice", "key123", none⟩ "https://saram.test/"
      (fun t => t ++ "-tok") "t0" "Title" "web" "" ⟨200, .str "ignored"⟩
      (by decide)).1 rfl,
   (create_new_entry_success_only_logs ⟨"alice", "key123", none⟩ "https://saram.test/"
      (fun t => t ++ "-tok") "t0" "Title" "web" "" ⟨500, .obj []⟩
      (by decide)).2 (by decide)⟩

/-- C6: the client built at construction carries both auth headers, every
request issued by an authenticated operation attaches exactly that header
set, and `validate_api_key` and `get_valid_token` issue their requests with
no headers attached. -/
theorem auth_headers_policy (conf : Config) (base : String)
    (tokG : String → String) (time : String) (n : Nat)
    (token dataid ty output command comment title category slack_link
      old_apikey uname api_key old_username new_username : String)
    (resp : Response) :
    (SaramAPI.init conf base tokG time).headers
        = [("x-saram-apikey", conf.apiKey), ("x-saram-username", conf.username)]
    ∧ (∀ req ∈ (get_all_entries (SaramAPI.init conf base tokG time) resp).requests,
        req.headers = some (SaramAPI.init conf base tokG time).headers)
    ∧ (∀ req ∈ (get_entry (SaramAPI.init conf base tokG time) token resp).requests,
        req.headers = some (SaramAPI.init conf base tokG time).headers)
    ∧ (∀ req ∈ (delete_entry (SaramAPI.init conf base tokG time) token resp).requests,
        req.headers = some (SaramAPI.init conf base tokG time).headers)
    ∧ (∀ req ∈ (create_new_section (SaramAPI.init conf base tokG time) n token ty
          output command comment resp).requests,
        req.headers = some (SaramAPI.init conf base tokG time).headers)
    ∧ (∀ req ∈ (add_comment (SaramAPI.init conf base tokG time) token dataid
          comment resp).requests,
        req.headers = some (SaramAPI.init conf base tokG time).headers)
    ∧ (∀ req ∈ (delete_section (SaramAPI.init conf base tokG time) token dataid
          resp).requests,
        req.headers = some (SaramAPI.init conf base tokG time).headers)
    ∧ (∀ req ∈ (create_new_entry (SaramAPI.init conf base tokG time) title category
          slack_link resp).requests,
        req.headers = some (SaramAPI.init conf base tokG time).headers)
    ∧ (∀ req ∈ (reset_api_key (SaramAPI.init conf base tokG time) old_apikey uname
          resp).requests,
        req.headers = some (SaramAPI.init conf base tokG time).headers)
    ∧ (∀ req ∈ (change_username (SaramAPI.init conf base tokG time) api_key
          old_username new_username resp).requests,
        req.headers = some (SaramAPI.init conf base tokG time).headers)
    ∧ (∀ req ∈ (validate_api_key (SaramAPI.init conf base tokG time) api_key
          resp).requests, req.headers = none)
    ∧ (∀ req ∈ (get_valid_token (SaramAPI.init conf base tokG time) title
          resp).requests, req.headers = none) := by
  refine ⟨rfl, ?_, ?_, ?_, ?_, ?_, ?_, ?_, ?_, ?_, ?_, ?_⟩ <;> intro req hreq
  · simp only [get_all_entries] at hreq
    split at hreq <;> (simp at hreq; subst hreq; rfl)
  · simp only [get_entry] at hreq
    split at hreq <;> (simp at hreq; subst hreq; rfl)
  · simp only [delete_entry, Response.getAttr] at hreq
    split at hreq
    · simp at hreq; subst hreq; rfl
    · split at hreq <;> (simp at hreq; subst hreq; rfl)
  · simp only [create_new_section] at hreq
    split at hreq
    · simp at hreq
    · split at hreq <;> (simp at hreq; subst hreq; rfl)
  · simp only [add_comment] at hreq
    split at hreq <;> (simp at hreq; subst hreq; rfl)
  · simp only [delete_section] at hreq
    split at hreq <;> (simp at hreq; subst hreq; rfl)
  · simp only [create_new_entry] at hreq
    split at hreq
    · simp at hreq
    · split at hreq <;> (simp at hreq; subst hreq; rfl)
  · simp only [reset_api_key] at hreq
    split at hreq <;> (simp at hreq; subst hreq; rfl)
  · simp only [change_username] at hreq
    split at hreq <;> (simp at hreq; subst hreq; rfl)
  · simp only [validate_api_key] at hreq
    split at hreq <;> (simp at hreq; subst hreq; rfl)
  · simp only [get_valid_token] at hreq
    split at hreq <;> (simp at hreq; subst hreq; rfl)

/-- C6 witness: the policy instantiated at a concrete configuration,
arguments and response. -/
theorem auth_headers_policy_witness :
    ∀ req ∈ (get_all_entries sampleClient ⟨200, .obj []⟩).requests,
      req.headers = some sampleClient.headers :=
  (auth_headers_policy ⟨"alice", "key123", none⟩ "https://saram.test/"
      (fun t => t ++ "-tok") "t0" 0 "tok" "did" "stdout" "o" "c" "saramPy"
      "Title" "web" "" "oldkey" "alice" "key" "alice" "bob" ⟨200, .obj []⟩).2.1

/-- C7: `create_new_entry` on a valid category derives the token locally by
applying the token generator to the title and issues exactly one request:
a POST to `<api_url>create/<token>` whose payload has exactly the fields
title, category, slackLink, timeCreate and an empty data sequence. -/
theorem create_new_entry_request_shape (conf : Config) (base : String)
    (tokG : String → String) (time : String)
    (title category slack_link : String) (resp : Response)
    (hcat : category ∈ validCategories) :
    (create_new_entry (SaramAPI.init conf base tokG time) title category
        slack_link resp).requests =
      [{ method := .post,
         url := base ++ "api/" ++ "create/" ++ tokG title,
         headers := some [("x-saram-apikey", conf.apiKey),
                          ("x-saram-username", conf.username)],
         body := some (.obj [("title", .str title),
                             ("category", .str category),
                             ("slackLink", .str slack_link),
                             ("timeCreate", .str time),
                             ("data", .arr [])]) }] := by
  simp only [create_new_entry, create_new_entry_payload, SaramAPI.init,
    hcat, not_true_eq_false, if_false]
  split <;> rfl

/-- C7 witness: the request shape at a concrete client, title and response. -/
theorem create_new_entry_request_shape_witness :
    (create_new_entry sampleClient "Title" "web" "" ⟨200, .obj []⟩).requests =
      [{ method := .post,
         url := "https://saram.test/" ++ "api/" ++ "create/" ++ "Title-tok",
         headers := some [("x-saram-apikey", "key123"),
                          ("x-saram-username", "alice")],
         body := some (.obj [("title", .str "Title"),
                             ("category", .str "web"),
                             ("slackLink", .str ""),
                             ("timeCreate", .str "t0"),
                             ("data", .arr [])]) }] :=
  create_new_entry_request_shape ⟨"alice", "key123", none⟩ "https://saram.test/"
    (fun t => t ++ "-tok") "t0" "Title" "web" "" ⟨200, .obj []⟩ (by decide)

/-- C8: `get_entry` on an HTTP 200 response returns the parsed response body
unmodified. -/
theorem get_entry_returns_body_unmodified (conf : Config) (base : String)
    (tokG : String → String) (time : String) (token : String) (resp : Response)
    (h200 : resp.status_code = 200) :
    (get_entry (SaramAPI.init conf base tokG time) token resp).result
      = .ok resp.body := by
  simp [get_entry, h200]

/-- C8 witness: a concrete 200 response body comes back unchanged. -/
theorem get_entry_returns_body_unmodified_witness :
    (get_entry sampleClient "sometoken"
        ⟨200, .obj [("title", .str "X")]⟩).result
      = .ok (.obj [("title", .str "X")]) :=
  get_entry_returns_body_unmodified ⟨"alice", "key123", none⟩ "https://saram.test/"
    (fun t => t ++ "-tok") "t0" "sometoken" ⟨200, .obj [("title", .str "X")]⟩ rfl

/-- C9: no operation mutates the state captured at construction — for every
client state and every call, succeeding or raising, the client after the call
is the client before it (so username, apiKey, avatar, api_url, the header
set and the valid type and category sets are all unchanged). -/
theorem operations_do_not_mutate_client (s : SaramAPI) (n : Nat)
    (token dataid ty output command comment title category slack_link
      old_apikey uname api_key old_username new_username : String)
    (resp : Response) :
    (get_all_entries s resp).client = s
    ∧ (get_entry s token resp).client = s
    ∧ (delete_entry s token resp).client = s
    ∧ (create_new_section s n token ty output command comment resp).client = s
    ∧ (add_comment s token dataid comment resp).client = s
    ∧ (delete_section s token dataid resp).client = s
    ∧ (create_new_entry s title category slack_link resp).client = s
    ∧ (reset_api_key s old_apikey uname resp).client = s
    ∧ (change_username s api_key old_username new_username resp).client = s
    ∧ (validate_api_key s api_key resp).client = s
    ∧ (get_valid_token s title resp).client = s := by
  refine ⟨?_, ?_, ?_, ?_, ?_, ?_, ?_, ?_, ?_, ?_, ?_⟩ <;>
    simp only [get_all_entries, get_entry, delete_entry, create_new_section,
      add_comment, delete_section, create_new_entry, reset_api_key,
      change_username, validate_api_key, get_valid_token] <;>
    (split <;> (try split) <;> rfl)

/-- C10: every comment the client sends is attributed to the credentials
captured at construction — `add_comment` nests the caller's text under
`data` together with the configured username and avatar, and
`create_new_section` builds its comment object the same way, for every
choice of comment text. -/
theorem comment_attribution (conf : Config) (base : String)
    (tokG : String → String) (time : String) (n : Nat)
    (token dataid ty output command comment : String) (resp : Response) :
    ((add_comment (SaramAPI.init conf base tokG time) token dataid comment
        resp).requests.map Request.body
      = [some (.obj [("data", .obj [("text", .str comment),
            ("username", .str conf.username),
            ("avatar", .str (conf.avatar.getD "/static/saramapi.png"))])])])
    ∧ (ty ∈ validTypes →
      (create_new_section (SaramAPI.init conf base tokG time) n token ty output
          command comment resp).requests.map Request.body
        = [some (.obj [("id", .str (uuid1 n)),
            ("type", .str ty),
            ("output", .str output),
            ("command", .str command),
            ("user", .str conf.username),
            ("comment", .obj [("text", .str comment),
                              ("username", .str conf.username),
                              ("avatar", .str (conf.avatar.getD "/static/saramapi.png"))]),
            ("options", .obj [("marked", .num 2)]),
            ("time", .str time)])]) := by
  constructor
  · simp only [add_comment, add_comment_payload, SaramAPI.init]
    split <;> rfl
  · intro h
    simp only [create_new_section, create_new_section_payload, SaramAPI.init,
      h, not_true_eq_false, if_false]
    split <;> rfl

/-- C10 witness: the attribution at a concrete client, comment text and
response, for both `add_comment` and `create_new_section`. -/
theorem comment_attribution_witness :
    ((add_comment sampleClient "tok" "did" "helpful comment"
        ⟨200, .obj []⟩).requests.map Request.body
      = [some (.obj [("data", .obj [("text", .str "helpful comment"),
            ("username", .str "alice"),
            ("avatar", .str "/static/saramapi.png")])])])
    ∧ ((create_new_section sampleClient 0 "tok" "stdout" "o" "c" "helpful comment"
        ⟨200, .obj []⟩).requests.map Request.body
      = [some (.obj [("id", .str (uuid1 0)),
            ("type", .str "stdout"),
            ("output", .str "o"),
            ("command", .str "c"),
            ("user", .str "alice"),
            ("comment", .obj [("text", .str "helpful comment"),
                              ("username", .str "alice"),
                              ("avatar", .str "/static/saramapi.png")]),
            ("options", .obj [("marked", .num 2)]),
            ("time", .str "t0")])]) :=
  ⟨(comment_attribution ⟨"alice", "key123", none⟩ "https://saram.test/"
      (fun t => t ++ "-tok") "t0" 0 "tok" "did" "stdout" "o" "c"
      "helpful comment" ⟨200, .obj []⟩).1,
   (comment_attribution ⟨"alice", "key123", none⟩ "https://saram.test/"
      (fun t => t ++ "-tok") "t0" 0 "tok" "did" "stdout" "o" "c"
      "helpful comment" ⟨200, .obj []⟩).2 (by decide)⟩

end SaramPy
